import Mathlib

set_option linter.dupNamespace false

/-!
Verification of `folly/experimental/symbolizer/Symbolizer.h` (folly, 2013
snapshot).  The header's inline code (SymbolizedFrame, FrameArray,
detail::fixFrameArray, getStackTrace<N>, Symbolizer::symbolize<N> and the
single-address shortcut, SymbolizePrinter::println<N>, the Options enum) is
embedded directly from the source.  The out-of-line implementations
(Symbolizer.cpp: batch symbolize, print/printTerse, registration) are not part
of the repository snapshot; those are modelled from the spec, each such
definition marked `Modelled from the spec:`.

C arrays are embedded as total functions `Nat → α` together with the capacity
`N`: an access at an index `≥ N` is an out-of-bounds access of the C program,
which the model makes visible through explicit access-trace functions.
-/

namespace Folly.Symbolizer

/-- The `Dwarf::LocationInfo` type, reduced to what the spec exposes: a resolved
(file, line) pair.  `none` models an unset location (`hasFileAndLine` false). -/
abbrev LocationInfo := Option (String × Nat)

/-- Struct `SymbolizedFrame` (Symbolizer.h lines 40–46): `isSignalFrame`, `found`,
a symbol name (`none` = empty `StringPiece`), and a location. -/
structure SymbolizedFrame where
  isSignalFrame : Bool
  found : Bool
  name : Option String
  location : LocationInfo
deriving DecidableEq, Repr

/-- Constructor `SymbolizedFrame()` (line 41).  It initializes only
`found` (to `false`); `isSignalFrame` is a plain `bool` member that the
constructor never assigns, so its value is whatever indeterminate bit the
storage held — modelled as the explicit parameter `indeterminate`.  `name`
and `location` are class types whose default constructors produce the empty
string piece and an unset location. -/
def SymbolizedFrame.init (indeterminate : Bool) : SymbolizedFrame :=
  { isSignalFrame := indeterminate
    found := false
    name := none
    location := none }

/-- Struct `FrameArray<N>` (lines 48–55): `frameCount` plus two C arrays of
capacity `N`.  The arrays are embedded as total functions on `Nat`; indices
`≥ N` stand for memory beyond the array (out of bounds for the C program). -/
structure FrameArray (N : Nat) where
  frameCount : Nat
  addresses : Nat → Nat
  frames : Nat → SymbolizedFrame

/-- Constructor `FrameArray()` (line 50): sets `frameCount` to 0; the array
contents are indeterminate, modelled as parameters. -/
def FrameArray.init (N : Nat) (addrs : Nat → Nat) (frs : Nat → SymbolizedFrame) :
    FrameArray N :=
  { frameCount := 0, addresses := addrs, frames := frs }

/-- Function `detail::fixFrameArray` (lines 63–75): if `n != -1` set
`frameCount = n`, clear `frames[i].found` for every `i < frameCount`, and
return `true`; otherwise set `frameCount = 0` and return `false`.
Returns (return value, updated FrameArray). -/
def fixFrameArray {N : Nat} (fa : FrameArray N) (n : Int) : Bool × FrameArray N :=
  if n ≠ -1 then
    let fc := n.toNat
    (true,
      { fa with
        frameCount := fc
        frames := fun i => if i < fc then { fa.frames i with found := false } else fa.frames i })
  else
    (false, { fa with frameCount := 0 })

/-- The frame indices written by the loop of `fixFrameArray` (line 67): the
loop runs `i` from 0 to `fa.frameCount` exclusive, where `frameCount` has
just been set to `n`; on the failure branch no frame is written. -/
def fixFrameArrayWrites (n : Int) : List Nat :=
  if n ≠ -1 then List.range n.toNat else []

/-- Function `getStackTrace<N>` (lines 78–81): the external unwinder writes the
captured addresses into `fa.addresses` and reports a count (or the sentinel
-1); `fixFrameArray` then fixes the array up.  The out-of-scope unwinder is
modelled by its outcome: the addresses it wrote and the count it returned. -/
def getStackTrace {N : Nat} (captured : Nat → Nat) (n : Int) (fa : FrameArray N) :
    Bool × FrameArray N :=
  fixFrameArray { fa with addresses := captured } n

/-- Function `getStackTraceSafe<N>` (lines 83–86): same adapter over the
async-signal-safe capture primitive, modelled by its outcome likewise. -/
def getStackTraceSafe {N : Nat} (captured : Nat → Nat) (n : Int) (fa : FrameArray N) :
    Bool × FrameArray N :=
  fixFrameArray { fa with addresses := captured } n

/-- The `fa.addresses` indices read by `Symbolizer::symbolize<N>(FrameArray<N>&)`
(lines 99–102): it forwards `fa.frameCount` as the batch length, so the batch
reads `addresses[0] .. addresses[frameCount - 1]` (and the same frame slots). -/
def symbolizeFAConsults {N : Nat} (fa : FrameArray N) : List Nat :=
  List.range fa.frameCount

/-- One registered binary image (`ElfFile` slot plus its lookup behaviour).
The ELF/DWARF parsing itself is out of scope (spec §4.1–4.3); an image is
abstracted by the interface the spec gives it: `containsAddress`,
symbol lookup and line lookup on module-relative addresses, and a load base. -/
structure ObjectImage where
  loadBase : Nat
  containsAddress : Nat → Bool
  lookupSymbol : Nat → Option String
  lookupLine : Nat → LocationInfo

/-- Constant `Symbolizer::kMaxFiles` (line 115). -/
def kMaxFiles : Nat := 1024

/-- The `Symbolizer` state (lines 112–117): a fixed array of `kMaxFiles`
image slots and a count of slots in use.  Modelled as the list of the
`fileCount_` slots in use, in registration order. -/
structure Symbolizer where
  files : List ObjectImage

/-- The `Symbolizer()` constructor (line 90): `fileCount_ = 0`. -/
def Symbolizer.new : Symbolizer := ⟨[]⟩

/-- Modelled from the spec: image registration (not in the snapshot; only the
`fileCount_`/`files_[kMaxFiles]` declaration is, lines 112–117).  Spec §3:
registration is append-only; "Registration beyond the 1024-slot capacity is
rejected without error".  A full table leaves the state unchanged. -/
def Symbolizer.addImage (s : Symbolizer) (img : ObjectImage) : Symbolizer :=
  if s.files.length < kMaxFiles then ⟨s.files ++ [img]⟩ else s

/-- Registering a sequence of images one by one. -/
def Symbolizer.registerAll (s : Symbolizer) (imgs : List ObjectImage) : Symbolizer :=
  imgs.foldl Symbolizer.addImage s

/-- Modelled from the spec: the per-address body of
`Symbolizer::symbolize(const uintptr_t*, SymbolizedFrame*, size_t)` (declared
lines 95–97; definition not in the snapshot).  Spec §4.4: scan the registered
images for the owning one (none found leaves the frame as it was, i.e. the
default `found=false`); otherwise resolve name and location at the
module-relative address and set `found = true` iff either was resolved;
`isSignalFrame` is passed through unchanged. -/
def symbolizeFrame (s : Symbolizer) (address : Nat) (f : SymbolizedFrame) :
    SymbolizedFrame :=
  match s.files.find? (fun img => img.containsAddress address) with
  | none => f
  | some img =>
    let rel := address - img.loadBase
    let nm := img.lookupSymbol rel
    let loc := img.lookupLine rel
    { f with name := nm, location := loc, found := nm.isSome || loc.isSome }

/-- Modelled from the spec: the batch loop of `Symbolizer::symbolize` —
process the address/frame pairs in order, each independently (spec §4.4). -/
def symbolizeBatch (s : Symbolizer) : List (Nat × SymbolizedFrame) → List SymbolizedFrame
  | [] => []
  | (a, f) :: rest => symbolizeFrame s a f :: symbolizeBatch s rest

/-- The single-address shortcut `Symbolizer::symbolize(uintptr_t,
SymbolizedFrame&)` (lines 107–110): run the batch on the one pair and return
the frame's `found`.  Returns (updated frame, return value). -/
def symbolizeOne (s : Symbolizer) (address : Nat) (f : SymbolizedFrame) :
    SymbolizedFrame × Bool :=
  let f' := (symbolizeBatch s [(address, f)]).headD f
  (f', f'.found)

/-- Flag `NO_FILE_AND_LINE = 1 << 0` of `SymbolizePrinter::Options` (lines 155–161). -/
def NO_FILE_AND_LINE : Nat := 1 <<< 0

/-- Flag `TERSE = 1 << 1` of `SymbolizePrinter::Options` (lines 155–161). -/
def TERSE : Nat := 1 <<< 1

/-- Hexadecimal rendering of an address, the "literal address" of the output
contract (spec §6). -/
def hexAddr (address : Nat) : String :=
  "0x" ++ String.mk (Nat.toDigits 16 address)

/-- Modelled from the spec: "name if found, else the raw address" (source
comment line 159, spec §4.5 terse mode and §6 name-or-address). -/
def nameOrAddress (address : Nat) (f : SymbolizedFrame) : String :=
  match f.found, f.name with
  | true, some nm => nm
  | _, _ => hexAddr address

/-- Modelled from the spec: `SymbolizePrinter::printTerse` (declared line 168,
definition not in the snapshot).  Spec §4.5: "terse mode (name if found, else
the raw address, with no location at all)". -/
def printTerse (address : Nat) (f : SymbolizedFrame) : String :=
  nameOrAddress address f

/-- Modelled from the spec: `SymbolizePrinter::print(uintptr_t, const
SymbolizedFrame&)` (declared line 128, definition not in the snapshot).
Spec §6: a line has the shape address–name–`(file:line)`, terse mode reduces
it to name-or-address, and the `NO_FILE_AND_LINE` flag omits the
`(file:line)` suffix entirely. -/
def printFrame (options : Nat) (address : Nat) (f : SymbolizedFrame) : String :=
  if options &&& TERSE ≠ 0 then printTerse address f
  else
    let base := hexAddr address ++ " " ++ nameOrAddress address f
    match f.location with
    | some (file, line) =>
      if options &&& NO_FILE_AND_LINE ≠ 0 then base
      else base ++ " (" ++ file ++ ":" ++ toString line ++ ")"
    | none => base

/-- Method `SymbolizePrinter::println(uintptr_t, const SymbolizedFrame&)` (line 133):
one address with ending newline. -/
def printlnFrame (options : Nat) (address : Nat) (f : SymbolizedFrame) : String :=
  printFrame options address f ++ "\n"

/-- Modelled from the spec: the batch
`SymbolizePrinter::println(const uintptr_t*, const SymbolizedFrame*, size_t)`
(declared lines 138–140, definition not in the snapshot): "Print multiple
addresses on separate lines" — one `println` line per index `0 ≤ i < count`,
in order.  The two pointers are modelled as functions from the index. -/
def printlnSeq (options : Nat) (addresses : Nat → Nat) (frames : Nat → SymbolizedFrame) :
    Nat → List String
  | 0 => []
  | k + 1 =>
    printlnSeq options addresses frames k ++ [printlnFrame options (addresses k) (frames k)]

/-- Pointer arithmetic `p + skip` on a C array modelled as a function. -/
def ptrAdd {α : Type} (p : Nat → α) (skip : Nat) : Nat → α :=
  fun i => p (skip + i)

/-- Method `SymbolizePrinter::println<N>(const FrameArray<N>&, size_t)` (lines
146–151): if `skip < fa.frameCount`, print the batch starting at
`fa.addresses + skip` / `fa.frames + skip` with count `fa.frameCount - skip`;
otherwise do nothing. -/
def printlnFA {N : Nat} (options : Nat) (fa : FrameArray N) (skip : Nat) : List String :=
  if skip < fa.frameCount then
    printlnSeq options (ptrAdd fa.addresses skip) (ptrAdd fa.frames skip)
      (fa.frameCount - skip)
  else []

/-! ## Helper lemmas -/

/-- A full table absorbs any further registration. -/
theorem registerAll_of_full (s : Symbolizer) (imgs : List ObjectImage)
    (h : ¬ s.files.length < kMaxFiles) : s.registerAll imgs = s := by
  induction imgs with
  | nil => rfl
  | cons i rest ih =>
    show Symbolizer.registerAll (s.addImage i) rest = s
    have : s.addImage i = s := by simp [Symbolizer.addImage, h]
    rw [this]; exact ih

/-- Registration fills the remaining room, truncating the rest. -/
theorem registerAll_files (imgs : List ObjectImage) (s : Symbolizer)
    (h : s.files.length ≤ kMaxFiles) :
    (s.registerAll imgs).files = s.files ++ imgs.take (kMaxFiles - s.files.length) := by
  induction imgs generalizing s with
  | nil => simp [Symbolizer.registerAll]
  | cons i rest ih =>
    show (Symbolizer.registerAll (s.addImage i) rest).files = _
    by_cases hlt : s.files.length < kMaxFiles
    · have hadd : s.addImage i = ⟨s.files ++ [i]⟩ := by simp [Symbolizer.addImage, hlt]
      rw [hadd]
      have hlen : (s.files ++ [i]).length ≤ kMaxFiles := by
        simpa using Nat.succ_le_of_lt hlt
      rw [ih ⟨s.files ++ [i]⟩ hlen]
      have hpos : 0 < kMaxFiles - s.files.length := Nat.sub_pos_of_lt hlt
      obtain ⟨m, hm⟩ : ∃ m, kMaxFiles - s.files.length = m + 1 :=
        ⟨kMaxFiles - s.files.length - 1, by omega⟩
      have hm' : kMaxFiles - (s.files ++ [i]).length = m := by
        simp only [List.length_append, List.length_singleton]; omega
      rw [hm, hm', List.take_succ_cons, List.append_assoc, List.singleton_append]
    · have hadd : s.addImage i = s := by simp [Symbolizer.addImage, hlt]
      rw [hadd, registerAll_of_full s rest hlt]
      have : kMaxFiles - s.files.length = 0 := by omega
      simp [this]

/-- The batch loop of `symbolize` maps the per-address resolution over the
input pairs. -/
theorem symbolizeBatch_eq_map (s : Symbolizer) (ps : List (Nat × SymbolizedFrame)) :
    symbolizeBatch s ps = ps.map (fun p => symbolizeFrame s p.1 p.2) := by
  induction ps with
  | nil => rfl
  | cons p rest ih => cases p; simp [symbolizeBatch, ih]

/-- The batch print loop prints the lines of indices `0 .. k-1` in order. -/
theorem printlnSeq_eq_map (options : Nat) (addresses : Nat → Nat)
    (frames : Nat → SymbolizedFrame) (k : Nat) :
    printlnSeq options addresses frames k
      = (List.range k).map (fun i => printlnFrame options (addresses i) (frames i)) := by
  induction k with
  | zero => rfl
  | succ k ih => simp [printlnSeq, ih, List.range_succ]

/-! ## Claim theorems -/

/-- Claim C1 (code bug).  For a `FrameArray` of capacity `N = 10` whose
capture reports `n = 15` frames, `fixFrameArray` does set `frameCount = 15`,
but its clearing loop runs `i` over `[0, frameCount)` and therefore writes
`frames[10] .. frames[14]` — frame slots at index `≥ N`, beyond the array —
and `Symbolizer::symbolize<N>` forwards `frameCount = 15` as the batch
length, so index 10 (`≥ N`) is among the consulted address/frame slots.
This contradicts the claim (and the header's own doc comment, which says
`frameCount` may exceed `N` while the arrays only hold `N` entries). -/
theorem fixFrameArray_overflow_bug :
    (fixFrameArray (FrameArray.init 10 (fun _ => 0) (fun _ => SymbolizedFrame.init false)) 15).1
        = true ∧
    (fixFrameArray (FrameArray.init 10 (fun _ => 0) (fun _ => SymbolizedFrame.init false)) 15).2.frameCount
        = 15 ∧
    10 ∈ fixFrameArrayWrites 15 ∧
    10 ∈ symbolizeFAConsults
      (fixFrameArray (FrameArray.init 10 (fun _ => 0) (fun _ => SymbolizedFrame.init false)) 15).2 := by
  refine ⟨rfl, rfl, ?_, ?_⟩
  · simp [fixFrameArrayWrites]
  · show 10 ∈ List.range (fixFrameArray _ 15).2.frameCount
    simp [fixFrameArray, FrameArray.init]

/-- Claim C2.  When the capture reports the failure sentinel `-1`,
`getStackTrace` (and `getStackTraceSafe`) returns `false`, sets
`frameCount = 0`, leaves every frame slot untouched, and the clearing loop
writes no frame index at all. -/
theorem getStackTrace_failure (N : Nat) (captured : Nat → Nat) (fa : FrameArray N) :
    (getStackTrace captured (-1) fa).1 = false ∧
    (getStackTrace captured (-1) fa).2.frameCount = 0 ∧
    (getStackTrace captured (-1) fa).2.frames = fa.frames ∧
    (getStackTraceSafe captured (-1) fa).1 = false ∧
    (getStackTraceSafe captured (-1) fa).2.frameCount = 0 ∧
    (getStackTraceSafe captured (-1) fa).2.frames = fa.frames ∧
    fixFrameArrayWrites (-1) = [] := by
  refine ⟨rfl, rfl, rfl, rfl, rfl, rfl, rfl⟩

/-- Claim C9.  After a successful capture of `n ≤ N` frames, `getStackTrace`
(and `getStackTraceSafe`) returns `true` and every captured frame slot
`i < n` has its `found` flag reset to `false`. -/
theorem getStackTrace_success_clears_found (N : Nat) (captured : Nat → Nat) (n : Int)
    (fa : FrameArray N) (h0 : 0 ≤ n) (hN : n.toNat ≤ N) :
    (getStackTrace captured n fa).1 = true ∧
    (∀ i, i < n.toNat → ((getStackTrace captured n fa).2.frames i).found = false) ∧
    (getStackTraceSafe captured n fa).1 = true ∧
    (∀ i, i < n.toNat → ((getStackTraceSafe captured n fa).2.frames i).found = false) := by
  have hne : n ≠ -1 := by omega
  refine ⟨?_, ?_, ?_, ?_⟩ <;>
    simp [getStackTrace, getStackTraceSafe, fixFrameArray, hne] <;>
    intro i hi <;> simp [hi]

/-- Claim C9, witness at `N = 3`, `n = 2`. -/
theorem getStackTrace_success_clears_found_witness :
    (0 : Int) ≤ 2 ∧ Int.toNat 2 ≤ 3 ∧
    ((getStackTrace (fun _ => 0) 2
        (FrameArray.init 3 (fun _ => 0) (fun _ => SymbolizedFrame.init true))).1 = true ∧
     (∀ i, i < Int.toNat 2 →
       (((getStackTrace (fun _ => 0) 2
           (FrameArray.init 3 (fun _ => 0) (fun _ => SymbolizedFrame.init true))).2.frames i).found
          = false)) ∧
     (getStackTraceSafe (fun _ => 0) 2
        (FrameArray.init 3 (fun _ => 0) (fun _ => SymbolizedFrame.init true))).1 = true ∧
     (∀ i, i < Int.toNat 2 →
       (((getStackTraceSafe (fun _ => 0) 2
           (FrameArray.init 3 (fun _ => 0) (fun _ => SymbolizedFrame.init true))).2.frames i).found
          = false))) :=
  ⟨by decide, by decide,
    getStackTrace_success_clears_found 3 (fun _ => 0) 2
      (FrameArray.init 3 (fun _ => 0) (fun _ => SymbolizedFrame.init true))
      (by decide) (by decide)⟩

/-- Claim C10.  The `SymbolizedFrame` constructor always produces
`found = false`, but merely passes through whatever indeterminate bit the
`isSignalFrame` storage held: two runs with different residual bits yield
different `isSignalFrame` values, so the constructor does not determine it. -/
theorem symbolizedFrame_ctor_found_not_signal :
    (∀ b : Bool, (SymbolizedFrame.init b).found = false) ∧
    (∀ b : Bool, (SymbolizedFrame.init b).isSignalFrame = b) ∧
    (SymbolizedFrame.init true).isSignalFrame ≠ (SymbolizedFrame.init false).isSignalFrame := by
  refine ⟨fun b => rfl, fun b => rfl, by decide⟩

/-- Claim C3.  Registration keeps at most `kMaxFiles = 1024` slots in use:
after registering any image sequence the slots in use are exactly the first
1024 images, so the count never exceeds 1024, the whole run is
indistinguishable from one where the images beyond the 1024th were never
registered (in particular `symbolize` results coincide), and registering
into a full table is rejected without error — the state is unchanged. -/
theorem symbolizer_capacity (imgs : List ObjectImage) (pairs : List (Nat × SymbolizedFrame))
    (img img' : ObjectImage) :
    (Symbolizer.new.registerAll imgs).files = imgs.take kMaxFiles ∧
    (Symbolizer.new.registerAll imgs).files.length ≤ kMaxFiles ∧
    Symbolizer.new.registerAll imgs = Symbolizer.new.registerAll (imgs.take kMaxFiles) ∧
    symbolizeBatch (Symbolizer.new.registerAll imgs) pairs
      = symbolizeBatch (Symbolizer.new.registerAll (imgs.take kMaxFiles)) pairs ∧
    Symbolizer.addImage ⟨List.replicate kMaxFiles img'⟩ img
      = ⟨List.replicate kMaxFiles img'⟩ := by
  have key : ∀ l : List ObjectImage, (Symbolizer.new.registerAll l).files = l.take kMaxFiles := by
    intro l
    have h := registerAll_files l Symbolizer.new (by simp [Symbolizer.new, kMaxFiles])
    simpa [Symbolizer.new] using h
  have heq : Symbolizer.new.registerAll imgs
      = Symbolizer.new.registerAll (imgs.take kMaxFiles) := by
    have h1 := key imgs
    have h2 := key (imgs.take kMaxFiles)
    cases hs : Symbolizer.new.registerAll imgs with
    | mk fs =>
      cases ht : Symbolizer.new.registerAll (imgs.take kMaxFiles) with
      | mk gs =>
        have : fs = gs := by
          have e1 : fs = imgs.take kMaxFiles := by rw [← h1, hs]
          have e2 : gs = (imgs.take kMaxFiles).take kMaxFiles := by rw [← h2, ht]
          rw [e1, e2, List.take_take, min_self]
        rw [this]
  refine ⟨key imgs, ?_, heq, by rw [heq], ?_⟩
  · rw [key imgs]; exact (List.length_take _ _).le.trans (min_le_left _ _)
  · simp [Symbolizer.addImage]

/-- Claim C5.  For a default (just-reset) input frame: the resulting frame
has `found = true` iff a name or a location was resolved for the address; a
Symbolizer with zero registered images leaves `found = false`; and the
single-address shortcut returns exactly the resulting frame's `found`,
the frame being the same one the batch path produces. -/
theorem symbolize_found_iff (s : Symbolizer) (address : Nat) (f : SymbolizedFrame)
    (hf : f.found = false) (hn : f.name = none) (hl : f.location = none) :
    ((symbolizeFrame s address f).found = true ↔
      ((symbolizeFrame s address f).name.isSome = true ∨
       (symbolizeFrame s address f).location.isSome = true)) ∧
    (s.files = [] → (symbolizeFrame s address f).found = false) ∧
    (symbolizeOne s address f).2 = (symbolizeOne s address f).1.found ∧
    (symbolizeOne s address f).1 = symbolizeFrame s address f := by
  refine ⟨?_, ?_, rfl, rfl⟩
  · unfold symbolizeFrame
    cases hfind : s.files.find? (fun img => img.containsAddress address) with
    | none => simp [hf, hn, hl]
    | some img => simp [Bool.or_eq_true]
  · intro hempty
    unfold symbolizeFrame
    simp [hempty, hf]

/-- Claim C5, witness: the empty Symbolizer at address 7 on a
default-constructed frame. -/
theorem symbolize_found_iff_witness :
    (SymbolizedFrame.init false).found = false ∧
    (SymbolizedFrame.init false).name = none ∧
    (SymbolizedFrame.init false).location = none ∧
    (((symbolizeFrame Symbolizer.new 7 (SymbolizedFrame.init false)).found = true ↔
        ((symbolizeFrame Symbolizer.new 7 (SymbolizedFrame.init false)).name.isSome = true ∨
         (symbolizeFrame Symbolizer.new 7 (SymbolizedFrame.init false)).location.isSome = true)) ∧
     (Symbolizer.new.files = [] →
        (symbolizeFrame Symbolizer.new 7 (SymbolizedFrame.init false)).found = false) ∧
     (symbolizeOne Symbolizer.new 7 (SymbolizedFrame.init false)).2
        = (symbolizeOne Symbolizer.new 7 (SymbolizedFrame.init false)).1.found ∧
     (symbolizeOne Symbolizer.new 7 (SymbolizedFrame.init false)).1
        = symbolizeFrame Symbolizer.new 7 (SymbolizedFrame.init false)) :=
  ⟨rfl, rfl, rfl, symbolize_found_iff Symbolizer.new 7 (SymbolizedFrame.init false) rfl rfl rfl⟩

/-- Claim C6.  Batch symbolization is the pointwise map of the per-address
resolution, so it is order-preserving and per-address independent: on
permuted inputs the outputs are the correspondingly permuted results (each
pair yields the identical frame in both runs), and the result at any
position is computed from that pair alone — the surrounding results,
including any that failed to resolve, are unaffected. -/
theorem symbolize_perm_independent (s : Symbolizer) (ps qs : List (Nat × SymbolizedFrame))
    (h : ps.Perm qs) :
    symbolizeBatch s ps = ps.map (fun p => symbolizeFrame s p.1 p.2) ∧
    (symbolizeBatch s ps).Perm (symbolizeBatch s qs) ∧
    (∀ l₁ p l₂, ps = l₁ ++ p :: l₂ →
      symbolizeBatch s ps
        = symbolizeBatch s l₁ ++ symbolizeFrame s p.1 p.2 :: symbolizeBatch s l₂) := by
  refine ⟨symbolizeBatch_eq_map s ps, ?_, ?_⟩
  · rw [symbolizeBatch_eq_map s ps, symbolizeBatch_eq_map s qs]
    exact h.map _
  · intro l₁ p l₂ hsplit
    rw [hsplit, symbolizeBatch_eq_map, symbolizeBatch_eq_map, symbolizeBatch_eq_map]
    simp

/-- Claim C6, witness on a singleton batch (a permutation of itself). -/
theorem symbolize_perm_independent_witness :
    (([(0, SymbolizedFrame.init false)] : List (Nat × SymbolizedFrame)).Perm
        [(0, SymbolizedFrame.init false)]) ∧
    (symbolizeBatch Symbolizer.new [(0, SymbolizedFrame.init false)]
        = [(0, SymbolizedFrame.init false)].map (fun p => symbolizeFrame Symbolizer.new p.1 p.2) ∧
     (symbolizeBatch Symbolizer.new [(0, SymbolizedFrame.init false)]).Perm
        (symbolizeBatch Symbolizer.new [(0, SymbolizedFrame.init false)]) ∧
     (∀ l₁ p l₂, ([(0, SymbolizedFrame.init false)] : List (Nat × SymbolizedFrame)) = l₁ ++ p :: l₂ →
        symbolizeBatch Symbolizer.new [(0, SymbolizedFrame.init false)]
          = symbolizeBatch Symbolizer.new l₁
              ++ symbolizeFrame Symbolizer.new p.1 p.2 :: symbolizeBatch Symbolizer.new l₂)) :=
  ⟨List.Perm.refl _,
    symbolize_perm_independent Symbolizer.new _ _ (List.Perm.refl [(0, SymbolizedFrame.init false)])⟩

/-- Claim C4.  The batch `println` over a `FrameArray` with a skip offset
prints exactly the lines of indices `[skip, frameCount)`, in order; when
`skip ≥ frameCount` it prints nothing (and, being a total function, does
not fail). -/
theorem println_skip (N options : Nat) (fa : FrameArray N) (skip : Nat) :
    printlnFA options fa skip
      = (List.range' skip (fa.frameCount - skip)).map
          (fun i => printlnFrame options (fa.addresses i) (fa.frames i)) ∧
    (fa.frameCount ≤ skip → printlnFA options fa skip = []) := by
  constructor
  · unfold printlnFA
    by_cases hlt : skip < fa.frameCount
    · rw [if_pos hlt, printlnSeq_eq_map, List.range'_eq_map_range]
      simp [ptrAdd, Function.comp]
    · rw [if_neg hlt]
      have : fa.frameCount - skip = 0 := by omega
      rw [this]
      simp
  · intro hle
    unfold printlnFA
    rw [if_neg (by omega)]

/-- Claim C7.  With the `TERSE` bit set, printing a frame with
`found = false` emits exactly the literal (hex) address and nothing else —
no location; with `TERSE` clear and `NO_FILE_AND_LINE` set, printing emits
the address–name-or-address base and never a `(file:line)` suffix, even for
frames whose location was resolved; and the two option flags are distinct
bits, composable by bitwise OR (their OR has both bits set). -/
theorem print_flag_semantics (options address : Nat) (f : SymbolizedFrame) :
    (options &&& TERSE ≠ 0 → f.found = false →
      printFrame options address f = hexAddr address) ∧
    (options &&& TERSE = 0 → options &&& NO_FILE_AND_LINE ≠ 0 →
      printFrame options address f = hexAddr address ++ " " ++ nameOrAddress address f) ∧
    NO_FILE_AND_LINE ≠ TERSE ∧
    (NO_FILE_AND_LINE ||| TERSE) &&& NO_FILE_AND_LINE ≠ 0 ∧
    (NO_FILE_AND_LINE ||| TERSE) &&& TERSE ≠ 0 := by
  refine ⟨?_, ?_, by decide, by decide, by decide⟩
  · intro hterse hfound
    unfold printFrame printTerse nameOrAddress
    rw [if_pos hterse, hfound]
  · intro hterse hnofl
    unfold printFrame
    rw [if_neg (by simp [hterse])]
    cases f.location with
    | none => rfl
    | some loc => cases loc with | mk file line => simp [hnofl]

/-- Claim C4, witness: skipping past the end of a two-frame array prints
nothing. -/
theorem println_skip_witness :
    (FrameArray.mk 2 (fun _ => 0) (fun _ => SymbolizedFrame.init false) : FrameArray 2).frameCount
        ≤ 5 ∧
    printlnFA 0 (FrameArray.mk 2 (fun _ => 0) (fun _ => SymbolizedFrame.init false) : FrameArray 2) 5
        = [] :=
  ⟨by decide,
    (println_skip 2 0 (FrameArray.mk 2 (fun _ => 0) (fun _ => SymbolizedFrame.init false)) 5).2
      (by decide)⟩

/-- Claim C7, witness: a terse not-found frame prints the bare address, and
a suppressed-location frame with a resolved location prints no suffix. -/
theorem print_flag_semantics_witness :
    printFrame TERSE 3 (SymbolizedFrame.init false) = hexAddr 3 ∧
    printFrame NO_FILE_AND_LINE 3 (SymbolizedFrame.mk false true (some "f") (some ("a.cpp", 4)))
      = hexAddr 3 ++ " "
          ++ nameOrAddress 3 (SymbolizedFrame.mk false true (some "f") (some ("a.cpp", 4))) :=
  ⟨(print_flag_semantics TERSE 3 (SymbolizedFrame.init false)).1 (by decide) rfl,
   (print_flag_semantics NO_FILE_AND_LINE 3
      (SymbolizedFrame.mk false true (some "f") (some ("a.cpp", 4)))).2.1 (by decide) (by decide)⟩

end Folly.Symbolizer
